import Mathlib

/-!
Verification of the PDF→PNG conversion service (`convert_pdf.py`) against
its specification.

The Python module is shallowly embedded: byte buffers are `List Nat`
(each entry a byte value), HTTP exceptions are a structure of status code
and detail string, Python's exception control flow is `Except`, and the
external world (the remote GET, the PDF rendering engine, the image-host
POST) is an explicit environment supplied to the endpoint function.
-/

namespace ConvertPdf

/-- `fastapi.HTTPException`: a status code plus a detail message. -/
structure HTTPException where
  status_code : Nat
  detail : String
deriving Repr, DecidableEq

/-- The exception classes that can be raised inside the helpers' `try`
blocks.  In Python's class hierarchy, `fastapi.HTTPException` and
`aiohttp.ClientError` are both subclasses of `Exception`, and neither is a
subclass of the other; an `except` chain matches clauses in order. -/
inductive PyError where
  | http (e : HTTPException)
  | clientErr
  | other (msg : String)
deriving Repr, DecidableEq

/-- Which exceptions the clause `except aiohttp.ClientError` matches. -/
def PyError.isClientError : PyError → Bool
  | .clientErr => true
  | _ => false

/-- `isOkE r` is true exactly when the computation returned normally. -/
def isOkE {ε α : Type} : Except ε α → Bool
  | .ok _ => true
  | .error _ => false

/-- Substring test on lists of characters, mirroring Python's
`needle in hay` for strings (the empty needle is contained in every
string). -/
def charsContain (needle : List Char) : List Char → Bool
  | [] => needle.isEmpty
  | c :: rest => needle.isPrefixOf (c :: rest) || charsContain needle rest

/-- Python's `needle in hay` on strings. -/
def strContains (needle hay : String) : Bool :=
  charsContain needle.toList hay.toList

/-- Python's `s.lower()`; header values are ASCII, where lowercasing is
exactly `Char.toLower` on each character. -/
def strLower (s : String) : String :=
  String.mk (s.toList.map Char.toLower)

/-- Outcome of `session.get(url)` together with `response.read()`:
either a response (status, optional Content-Type header, body bytes),
or the network layer raised. -/
inductive FetchResult where
  | success (status : Nat) (contentType : Option String) (body : List Nat)
  | clientFailure
  | otherFailure (msg : String)
deriving Repr, DecidableEq

/-- The 10 MiB size cap from `download_pdf` (`10 * 1024 * 1024`). -/
def MAX_PDF_BYTES : Nat := 10 * 1024 * 1024

/-- The `try` body of `download_pdf` (lines 28–46 of `convert_pdf.py`):
status check, Content-Type check (`headers.get('Content-Type', '')`,
case-insensitive substring "pdf"), then the 10 MiB size cap; a network
failure surfaces as the corresponding exception. -/
def download_pdf_try : FetchResult → Except PyError (List Nat)
  | .clientFailure => .error .clientErr
  | .otherFailure m => .error (.other m)
  | .success status contentType body =>
    if status ≠ 200 then
      .error (.http ⟨400, "Failed to download PDF. Status code: " ++ toString status⟩)
    else
      let content_type := contentType.getD ""
      if strContains "pdf" (strLower content_type) = false then
        .error (.http ⟨400, "URL does not point to a PDF file. Content-Type: " ++ content_type⟩)
      else if body.length > MAX_PDF_BYTES then
        .error (.http ⟨400, "PDF file is too large."⟩)
      else
        .ok body

/-- `download_pdf` with its `except` chain (lines 47–52):
`except aiohttp.ClientError` raises a 400, and the following
`except Exception` — which also matches the `HTTPException`s raised by the
`try` body itself, since `HTTPException` is a subclass of `Exception` and
not of `aiohttp.ClientError` — raises a 500. -/
def download_pdf (f : FetchResult) : Except HTTPException (List Nat) :=
  match download_pdf_try f with
  | .ok b => .ok b
  | .error e =>
    if e.isClientError then
      .error ⟨400, "Client error occurred while downloading PDF."⟩
    else
      .error ⟨500, "Unexpected error occurred."⟩

/-- The page loop of `convert_pdf_to_images` (lines 60–64): for each
`page_num` in `range(len(doc))`, append the engine's PNG rendering of that
page.  A document is modelled as the list of its pages' PNG renderings,
`pages.getD i []` standing for
`doc.load_page(i).get_pixmap().tobytes("png")`. -/
def raster_pages (pages : List (List Nat)) : List (List Nat) :=
  (List.range pages.length).foldl (fun images i => images ++ [pages.getD i []]) []

/-- `convert_pdf_to_images`: `fitz.open` on the byte buffer either yields a
document (its pages' renderings) or raises; any exception in the `try`
body becomes a 500. -/
def convert_pdf_to_images (fitz_open : List Nat → Except String (List (List Nat)))
    (pdf_bytes : List Nat) : Except HTTPException (List (List Nat)) :=
  match fitz_open pdf_bytes with
  | .ok pages => .ok (raster_pages pages)
  | .error _ => .error ⟨500, "Error converting PDF to images."⟩

/-- `module_init` models lines 18–20: `os.environ.get("IMGBB_API_KEY")`
yields `none` when the variable is absent, and `if not IMGBB_API_KEY:`
is true for `None` and for the empty string (Python falsiness), in which
case module initialization raises and the process refuses to start. -/
def module_init (imgbb_env : Option String) : Except String String :=
  if (match imgbb_env with | none => true | some s => s.isEmpty) then
    .error "Imgbb API key not found in environment variables."
  else
    .ok (imgbb_env.getD "")

/-- A character of the standard base64 alphabet. -/
def b64charAt (n : Nat) : Char :=
  "ABCDEFGHIJKLMNOPQRSTUVWXYZabcdefghijklmnopqrstuvwxyz0123456789+/".toList.getD n '='

/-- Standard base64 of a byte list, three input bytes per four output
characters, padded with '=' (`base64.b64encode`). -/
def b64encodeChunks : List Nat → List Char
  | [] => []
  | [a] =>
    [b64charAt (a % 256 / 4), b64charAt (a % 256 % 4 * 16), '=', '=']
  | [a, b] =>
    [b64charAt (a % 256 / 4), b64charAt (a % 256 % 4 * 16 + b % 256 / 16),
     b64charAt (b % 256 % 16 * 4), '=']
  | a :: b :: c :: rest =>
    b64charAt (a % 256 / 4) :: b64charAt (a % 256 % 4 * 16 + b % 256 / 16) ::
    b64charAt (b % 256 % 16 * 4 + c % 256 / 64) :: b64charAt (c % 256 % 64) ::
    b64encodeChunks rest

/-- `base64.b64encode(image_bytes).decode('utf-8')`. -/
def b64encode (bs : List Nat) : String :=
  String.mk (b64encodeChunks bs)

/-- A JSON value as far as the uploader inspects it: a string, an object
(association list of fields), or any other value (number, boolean, null,
array), which string-keyed `in` and `[...]` both reject with a
`TypeError`. -/
inductive JVal where
  | str (s : String)
  | obj (fields : List (String × JVal))
  | prim

/-- Python's `k in v`: key membership for a dict, substring test for a
string, `TypeError` otherwise. -/
def JVal.pyContains : JVal → String → Except String Bool
  | .obj fs, k => .ok ((fs.lookup k).isSome)
  | .str s, k => .ok (strContains k s)
  | .prim, _ => .error "TypeError: argument is not iterable"

/-- Python's `v[k]` for a string key: dict lookup (`KeyError` when the key
is missing), `TypeError` otherwise. -/
def JVal.pyIndex : JVal → String → Except String JVal
  | .obj fs, k =>
    match fs.lookup k with
    | some v => .ok v
    | none => .error "KeyError"
  | .str _, _ => .error "TypeError: string indices must be integers"
  | .prim, _ => .error "TypeError: value is not subscriptable"

/-- Outcome of `session.post(...)` followed by `response.json()`: either a
parsed JSON value, or the call raised. -/
inductive PostResult where
  | ok (result : JVal)
  | raiseErr (msg : String)

/-- The `try` body of `upload_image_to_imgbb` (lines 72–85): evaluate
`'data' in result and 'url' in result['data']` with Python's
short-circuiting; on success return `result['data']['url']`, otherwise
raise a 500. -/
def upload_try (post : PostResult) : Except PyError JVal :=
  match post with
  | .raiseErr m => .error (.other m)
  | .ok result =>
    match result.pyContains "data" with
    | .error m => .error (.other m)
    | .ok false => .error (.http ⟨500, "Error uploading image."⟩)
    | .ok true =>
      match result.pyIndex "data" with
      | .error m => .error (.other m)
      | .ok d =>
        match d.pyContains "url" with
        | .error m => .error (.other m)
        | .ok false => .error (.http ⟨500, "Error uploading image."⟩)
        | .ok true =>
          match result.pyIndex "data" with
          | .error m => .error (.other m)
          | .ok d2 =>
            match d2.pyIndex "url" with
            | .error m => .error (.other m)
            | .ok u => .ok u

/-- `upload_image_to_imgbb` with its handler (lines 86–88): the single
`except Exception` clause catches every exception raised in the `try`
body — including the `HTTPException(500, "Error uploading image.")` it
raised itself — and raises `HTTPException(500, "Error uploading images.")`. -/
def upload_image_to_imgbb (post : PostResult) : Except HTTPException JVal :=
  match upload_try post with
  | .ok u => .ok u
  | .error _ => .error ⟨500, "Error uploading images."⟩

/-- `asyncio.gather` over the upload coroutines, at the determinism of the
embedding: all results in input order when every upload succeeds, and the
first failure otherwise (all-or-nothing join, no partial list). -/
def gather {α β : Type} (f : α → Except HTTPException β) :
    List α → Except HTTPException (List β)
  | [] => .ok []
  | x :: xs =>
    match f x with
    | .error e => .error e
    | .ok y =>
      match gather f xs with
      | .error e => .error e
      | .ok ys => .ok (y :: ys)

/-- The external world of one request: the outcome of the GET on the
request's URL, the rendering engine's behaviour on a byte buffer, and the
image host's response to a POST of a base64 payload (the constant API key
is omitted from the payload as it carries no information). -/
structure Env where
  fetch : FetchResult
  fitz_open : List Nat → Except String (List (List Nat))
  post : String → PostResult

/-- One upload task of the fan-out (line 98): base64-encode the image and
call `upload_image_to_imgbb` against the host's response. -/
def upload_page (env : Env) (img : List Nat) : Except HTTPException JVal :=
  upload_image_to_imgbb (env.post (b64encode img))

/-- The endpoint's result: the JSON success body or the raised
`HTTPException`. -/
inductive EndpointResult where
  | success (images : List JVal)
  | failure (e : HTTPException)

/-- `convert_pdf_endpoint` (lines 91–110): download, rasterize, gather the
concurrent uploads, fail with a 500 when the URL list is empty
(`if not image_urls:`), else return the list.  The handler's
`except HTTPException: raise http_exc` re-raises stage failures unchanged;
its `except Exception` clause is unreachable here because every stage
already converts its exceptions to `HTTPException`. -/
def convert_pdf_endpoint (env : Env) : EndpointResult :=
  match download_pdf env.fetch with
  | .error e => .failure e
  | .ok pdf_bytes =>
    match convert_pdf_to_images env.fitz_open pdf_bytes with
    | .error e => .failure e
    | .ok image_bytes_list =>
      match gather (upload_page env) image_bytes_list with
      | .error e => .failure e
      | .ok image_urls =>
        if image_urls.isEmpty then
          .failure ⟨500, "No images were generated."⟩
        else
          .success image_urls

/-- Spec-side predicate (§4.3): the host's JSON response carries the
expected nested URL field, a "url" key inside an object under the "data"
key of an object response. -/
def hasNestedUrlField : JVal → Bool
  | .obj fs =>
    match fs.lookup "data" with
    | some (.obj gs) => (gs.lookup "url").isSome
    | _ => false
  | _ => false

/-- Spec-side extractor: the value of the nested URL field, when present. -/
def nestedUrlField : JVal → Option JVal
  | .obj fs =>
    match fs.lookup "data" with
    | some (.obj gs) => gs.lookup "url"
    | _ => none
  | _ => none

/- ## Helper lemmas -/

/-- Folding snoc over `List.range` is mapping over it. -/
lemma foldl_snoc_range {α : Type} (f : Nat → α) (n : Nat) :
    ∀ acc : List α,
      (List.range n).foldl (fun images i => images ++ [f i]) acc =
        acc ++ (List.range n).map f := by
  induction n with
  | zero => intro acc; simp
  | succ n ih =>
    intro acc
    simp [List.range_succ, List.foldl_append, List.map_append, ih]

/-- Reading every index of a list back in order reproduces the list. -/
lemma map_getD_range {α : Type} (l : List α) (d : α) :
    (List.range l.length).map (fun i => l.getD i d) = l := by
  induction l with
  | nil => simp
  | cons x xs ih =>
    rw [List.length_cons, List.range_succ_eq_map, List.map_cons, List.map_map]
    simp only [Function.comp_def, List.getD_cons_succ, List.getD_cons_zero]
    rw [ih]

/-- The rasterization loop emits exactly the document's pages, in order. -/
lemma raster_pages_eq (pages : List (List Nat)) : raster_pages pages = pages := by
  unfold raster_pages
  rw [foldl_snoc_range, map_getD_range]
  simp

/-- When every element maps to a success, `gather` succeeds with one result
per input, in input order. -/
lemma gather_ok_of_forall {α β : Type} (f : α → Except HTTPException β) :
    ∀ l : List α, (∀ x ∈ l, ∃ y, f x = .ok y) →
      ∃ r, gather f l = .ok r ∧ r.length = l.length ∧
        ∀ i (hi : i < l.length) (hr : i < r.length),
          f (l.get ⟨i, hi⟩) = .ok (r.get ⟨i, hr⟩) := by
  intro l
  induction l with
  | nil =>
    intro _
    exact ⟨[], rfl, rfl, fun i hi _ => absurd hi (Nat.not_lt_zero i)⟩
  | cons x xs ih =>
    intro h
    obtain ⟨y, hy⟩ := h x (List.mem_cons_self x xs)
    obtain ⟨r, hg, hlen, hpt⟩ := ih (fun z hz => h z (List.mem_cons_of_mem x hz))
    refine ⟨y :: r, by simp [gather, hy, hg], by simp [hlen], ?_⟩
    intro i hi hr
    cases i with
    | zero => simpa using hy
    | succ n =>
      have hn : n < xs.length := Nat.lt_of_succ_lt_succ (by simpa using hi)
      have hn2 : n < r.length := Nat.lt_of_succ_lt_succ (by simpa using hr)
      simpa using hpt n hn hn2

/-- When every failure of `f` carries the same exception and some element
of the list fails, `gather` fails with that exception. -/
lemma gather_error_of_shape {α β : Type} (f : α → Except HTTPException β)
    (E : HTTPException) (hshape : ∀ x e, f x = .error e → e = E) :
    ∀ l : List α, (∃ x ∈ l, ∃ e, f x = .error e) → gather f l = .error E := by
  intro l
  induction l with
  | nil =>
    rintro ⟨x, hx, -⟩
    exact absurd hx (List.not_mem_nil x)
  | cons x xs ih =>
    rintro ⟨z, hz, e, he⟩
    cases hfx : f x with
    | error e2 => simp [gather, hfx, hshape x e2 hfx]
    | ok y =>
      rcases List.mem_cons.mp hz with hzx | hzxs
      · subst hzx
        rw [hfx] at he
        exact absurd he (by simp)
      · simp [gather, hfx, ih ⟨z, hzxs, e, he⟩]

/-- Every failure of the uploader is the one exception its handler builds. -/
lemma upload_error_shape (p : PostResult) (e : HTTPException)
    (h : upload_image_to_imgbb p = .error e) :
    e = ⟨500, "Error uploading images."⟩ := by
  unfold upload_image_to_imgbb at h
  cases htry : upload_try p with
  | ok u => rw [htry] at h; exact absurd h (by simp)
  | error pe =>
    rw [htry] at h
    have := Except.error.inj h
    exact this.symm

/-- Bytes returned by `download_pdf` respect the 10 MiB cap. -/
lemma download_ok_size (f : FetchResult) (bytes : List Nat)
    (h : download_pdf f = .ok bytes) : bytes.length ≤ MAX_PDF_BYTES := by
  unfold download_pdf at h
  cases htry : download_pdf_try f with
  | error e =>
    simp only [htry] at h
    split at h <;> exact absurd h (by simp)
  | ok b =>
    simp only [htry] at h
    have hb : b = bytes := Except.ok.inj h
    subst hb
    cases f with
    | clientFailure => exact absurd htry (by simp [download_pdf_try])
    | otherFailure m => exact absurd htry (by simp [download_pdf_try])
    | success st ct body =>
      simp only [download_pdf_try] at htry
      split_ifs at htry with h1 h2 h3
      all_goals simp at htry
      subst htry
      exact Nat.le_of_not_lt h3

/- ## Claim theorems -/

/-- C1: the claim says a 404 download response surfaces as a 400-equivalent
`RemoteFetchError`, never a 500.  The code violates this: the
`HTTPException(400, ...)` raised for a non-200 status is itself caught by
the `except Exception` clause of `download_pdf` and re-raised as
`HTTPException(500, "Unexpected error occurred.")`, for every content type
and body. -/
theorem C1_download_404_surfaced_as_500 (ct : Option String) (body : List Nat) :
    download_pdf (.success 404 ct body) =
      .error ⟨500, "Unexpected error occurred."⟩ := by
  simp [download_pdf, download_pdf_try, PyError.isClientError]

/-- A download environment whose GET yields a 404 response. -/
def env404 : Env where
  fetch := .success 404 (some "application/pdf") [37]
  fitz_open := fun _ => .error "unreachable"
  post := fun _ => .raiseErr "unreachable"

/-- C2: the claim says an already-classified failure reaches the caller
with its status code and message unchanged.  The code violates this: on a
404 response the download stage classifies the failure as
`HTTPException(400, "Failed to download PDF. Status code: 404")`, yet the
error delivered by the endpoint is
`HTTPException(500, "Unexpected error occurred.")` — both the status code
and the message were replaced inside `download_pdf`. -/
theorem C2_classified_download_error_rewrapped :
    download_pdf_try env404.fetch =
        .error (.http ⟨400, "Failed to download PDF. Status code: 404"⟩) ∧
    convert_pdf_endpoint env404 =
        .failure ⟨500, "Unexpected error occurred."⟩ :=
  ⟨rfl, rfl⟩

/-- C7: the claim says a 200 response with a non-PDF `Content-Type` (such
as `text/html`) fails with a `RemoteFetchError` (400-equivalent).  The
code does fail and never returns the body, but the
`HTTPException(400, ...)` it raises is swallowed by its own
`except Exception` clause and surfaces as
`HTTPException(500, "Unexpected error occurred.")` instead. -/
theorem C7_nonpdf_content_type_surfaced_as_500 (body : List Nat) :
    download_pdf (.success 200 (some "text/html") body) =
      .error ⟨500, "Unexpected error occurred."⟩ := by
  have hct : strContains "pdf" (strLower "text/html") = false := rfl
  simp [download_pdf, download_pdf_try, PyError.isClientError, hct]

/-- C9: when `IMGBB_API_KEY` is absent from the process environment,
module initialization raises
`Exception("Imgbb API key not found in environment variables.")`, so the
process refuses to start before the endpoint can serve any request. -/
theorem C9_missing_api_key_aborts_startup :
    module_init none =
      .error "Imgbb API key not found in environment variables." :=
  rfl

/-- C10: a response with no `Content-Type` header is read as the empty
string (`headers.get('Content-Type', '')`), and `download_pdf` then always
fails — the empty string never contains "pdf" — so it never returns the
body bytes of such a response. -/
theorem C10_missing_content_type_rejected (st : Nat) (body : List Nat) :
    download_pdf (.success st none body) =
        download_pdf (.success st (some "") body) ∧
    isOkE (download_pdf (.success st none body)) = false := by
  refine ⟨rfl, ?_⟩
  by_cases h : st = 200
  · subst h
    have hct : strContains "pdf" (strLower "") = false := rfl
    simp [download_pdf, download_pdf_try, isOkE, PyError.isClientError, hct]
  · simp [download_pdf, download_pdf_try, isOkE, PyError.isClientError, h]

/-- C3: when the download succeeds, rasterization yields N ≥ 1 pages, and
every page's upload succeeds, the endpoint responds with success and an
image list of exactly N entries whose i-th entry is the hosted URL of the
i-th source page. -/
theorem C3_success_preserves_page_count_and_order (env : Env)
    (bytes : List Nat) (pages : List (List Nat))
    (hdl : download_pdf env.fetch = .ok bytes)
    (hfz : env.fitz_open bytes = .ok pages)
    (hpos : 0 < pages.length)
    (hup : ∀ img ∈ pages, ∃ u, upload_page env img = .ok u) :
    ∃ urls, convert_pdf_endpoint env = .success urls ∧
      urls.length = pages.length ∧
      ∀ i (hi : i < pages.length) (hr : i < urls.length),
        upload_page env (pages.get ⟨i, hi⟩) = .ok (urls.get ⟨i, hr⟩) := by
  obtain ⟨r, hg, hlen, hpt⟩ := gather_ok_of_forall (upload_page env) pages hup
  refine ⟨r, ?_, hlen, hpt⟩
  have hne : r.isEmpty = false := by
    cases r with
    | nil => exact absurd hpos (by simp [← hlen])
    | cons a as => rfl
  simp only [convert_pdf_endpoint, hdl, convert_pdf_to_images, hfz,
    raster_pages_eq, hg, hne]
  simp

/-- Environment for the C3 witness: a 200 PDF response, a one-page
document, an image host that answers with a hosted URL. -/
def envC3 : Env where
  fetch := .success 200 (some "application/pdf") [1, 2, 3]
  fitz_open := fun _ => .ok [[7]]
  post := fun _ => .ok (.obj [("data", .obj [("url", .str "hosted")])])

/-- C3 witness: on a concrete one-page document with a successful upload,
the endpoint returns exactly one URL, the hosted URL of page 0. -/
theorem C3_success_preserves_page_count_and_order_witness :
    ∃ urls, convert_pdf_endpoint envC3 = .success urls ∧
      urls.length = ([[7]] : List (List Nat)).length ∧
      ∀ i (hi : i < ([[7]] : List (List Nat)).length) (hr : i < urls.length),
        upload_page envC3 (([[7]] : List (List Nat)).get ⟨i, hi⟩) =
          .ok (urls.get ⟨i, hr⟩) :=
  C3_success_preserves_page_count_and_order envC3 [1, 2, 3] [[7]] rfl rfl
    (by decide) (fun img _ => ⟨.str "hosted", rfl⟩)

/-- C4: a request whose document rasterizes to 0 pages fails with
`HTTPException(500, "No images were generated.")`, and no success response
of the endpoint ever carries an empty image list. -/
theorem C4_zero_pages_no_images_error :
    (∀ env bytes, download_pdf env.fetch = .ok bytes →
        env.fitz_open bytes = .ok [] →
        convert_pdf_endpoint env =
          .failure ⟨500, "No images were generated."⟩) ∧
    (∀ env urls, convert_pdf_endpoint env = .success urls →
        0 < urls.length) := by
  constructor
  · intro env bytes hdl hfz
    simp only [convert_pdf_endpoint, hdl, convert_pdf_to_images, hfz,
      raster_pages_eq]
    simp [gather]
  · intro env urls h
    unfold convert_pdf_endpoint at h
    cases hdl : download_pdf env.fetch with
    | error e => simp only [hdl] at h; exact EndpointResult.noConfusion h
    | ok pdf_bytes =>
      simp only [hdl] at h
      cases hcv : convert_pdf_to_images env.fitz_open pdf_bytes with
      | error e => simp only [hcv] at h; exact EndpointResult.noConfusion h
      | ok imgs =>
        simp only [hcv] at h
        cases hgt : gather (upload_page env) imgs with
        | error e => simp only [hgt] at h; exact EndpointResult.noConfusion h
        | ok image_urls =>
          simp only [hgt] at h
          by_cases hne : image_urls.isEmpty = true
          · rw [if_pos hne] at h; exact EndpointResult.noConfusion h
          · rw [if_neg hne] at h
            have := EndpointResult.success.inj h
            subst this
            cases image_urls with
            | nil => exact absurd rfl hne
            | cons a as => simp

/-- Environment for the C4 witness: a valid download whose PDF has zero
pages. -/
def envC4 : Env where
  fetch := .success 200 (some "application/pdf") [5]
  fitz_open := fun _ => .ok []
  post := fun _ => .raiseErr "unreachable"

/-- C4 witness: a concrete 0-page document makes the endpoint fail with
the `NoImagesError` response. -/
theorem C4_zero_pages_no_images_error_witness :
    convert_pdf_endpoint envC4 = .failure ⟨500, "No images were generated."⟩ :=
  C4_zero_pages_no_images_error.1 envC4 [5] rfl rfl

/-- C5: when the pipeline reaches the upload fan-out and any one page's
upload fails, the endpoint fails with the uploader's 500 response and
returns no partial URL list. -/
theorem C5_upload_failure_fails_whole_request (env : Env)
    (bytes : List Nat) (pages : List (List Nat)) (img : List Nat)
    (e : HTTPException)
    (hdl : download_pdf env.fetch = .ok bytes)
    (hfz : env.fitz_open bytes = .ok pages)
    (hmem : img ∈ pages)
    (hfail : upload_page env img = .error e) :
    convert_pdf_endpoint env = .failure ⟨500, "Error uploading images."⟩ := by
  have hg : gather (upload_page env) pages =
      .error ⟨500, "Error uploading images."⟩ :=
    gather_error_of_shape (upload_page env) _
      (fun x e2 hx => upload_error_shape (env.post (b64encode x)) e2 hx)
      pages ⟨img, hmem, e, hfail⟩
  simp only [convert_pdf_endpoint, hdl, convert_pdf_to_images, hfz,
    raster_pages_eq, hg]

/-- Environment for the C5 witness: a two-page document whose image host
raises on every upload. -/
def envC5 : Env where
  fetch := .success 200 (some "application/pdf") [9]
  fitz_open := fun _ => .ok [[1], [2]]
  post := fun _ => .raiseErr "connection reset"

/-- C5 witness: with two pages and a failing upload, the concrete endpoint
run fails with the uploader's 500 response. -/
theorem C5_upload_failure_fails_whole_request_witness :
    convert_pdf_endpoint envC5 = .failure ⟨500, "Error uploading images."⟩ :=
  C5_upload_failure_fails_whole_request envC5 [9] [[1], [2]] [1]
    ⟨500, "Error uploading images."⟩ rfl rfl (by decide) rfl

/-- C6: a downloaded body strictly larger than 10 MiB makes `download_pdf`
fail; every byte buffer `download_pdf` returns is at most 10 MiB long; and
when the download stage fails the endpoint fails immediately, so the
rasterizer is never invoked on an oversized buffer. -/
theorem C6_size_cap_before_rasterization :
    (∀ st ct body, body.length > MAX_PDF_BYTES →
        isOkE (download_pdf (.success st ct body)) = false) ∧
    (∀ f bytes, download_pdf f = .ok bytes →
        bytes.length ≤ MAX_PDF_BYTES) ∧
    (∀ env e, download_pdf env.fetch = .error e →
        convert_pdf_endpoint env = .failure e) := by
  refine ⟨?_, download_ok_size, ?_⟩
  · intro st ct body hbig
    simp only [download_pdf, download_pdf_try]
    split_ifs with h1 h2 <;> simp [isOkE, PyError.isClientError]
  · intro env e h
    simp only [convert_pdf_endpoint, h]

/-- Environment for the C6 witness: the network layer raises
`aiohttp.ClientError`, so the download stage fails. -/
def envC6 : Env where
  fetch := .clientFailure
  fitz_open := fun _ => .error "unreachable"
  post := fun _ => .raiseErr "unreachable"

/-- C6 witness: a body one byte over the cap is rejected; a small returned
body is within the cap; a failed download short-circuits the endpoint. -/
theorem C6_size_cap_before_rasterization_witness :
    isOkE (download_pdf (.success 200 (some "application/pdf")
        (List.replicate (MAX_PDF_BYTES + 1) 0))) = false ∧
    ([3] : List Nat).length ≤ MAX_PDF_BYTES ∧
    convert_pdf_endpoint envC6 =
      .failure ⟨400, "Client error occurred while downloading PDF."⟩ :=
  ⟨C6_size_cap_before_rasterization.1 200 (some "application/pdf") _
      (by rw [List.length_replicate]; omega),
   C6_size_cap_before_rasterization.2.1
      (.success 200 (some "application/pdf") [3]) [3] rfl,
   C6_size_cap_before_rasterization.2.2 envC6
      ⟨400, "Client error occurred while downloading PDF."⟩ rfl⟩

/-- C8: every failure of `upload_image_to_imgbb` carries status 500; it
fails exactly when the POST itself raised or the JSON response lacks the
expected nested URL field (a "url" key inside an object under "data");
and when the nested field is present it returns that field's value. -/
theorem C8_upload_error_classification (post : PostResult) :
    (∀ e, upload_image_to_imgbb post = .error e → e.status_code = 500) ∧
    (isOkE (upload_image_to_imgbb post) = false ↔
      ((∃ m, post = .raiseErr m) ∨
       (∃ r, post = .ok r ∧ hasNestedUrlField r = false))) ∧
    (∀ r u, post = .ok r → nestedUrlField r = some u →
      upload_image_to_imgbb post = .ok u) := by
  refine ⟨?_, ?_, ?_⟩
  · intro e he
    rw [upload_error_shape post e he]
  · cases post with
    | raiseErr m =>
      simp [upload_image_to_imgbb, upload_try, isOkE]
    | ok result =>
      cases result with
      | prim =>
        simp [upload_image_to_imgbb, upload_try, JVal.pyContains, isOkE,
          hasNestedUrlField]
      | str s =>
        cases hc : strContains "data" s <;>
          simp [upload_image_to_imgbb, upload_try, JVal.pyContains,
            JVal.pyIndex, isOkE, hasNestedUrlField, hc]
      | obj fs =>
        cases hd : fs.lookup "data" with
        | none =>
          simp [upload_image_to_imgbb, upload_try, JVal.pyContains,
            JVal.pyIndex, isOkE, hasNestedUrlField, hd]
        | some d =>
          cases d with
          | prim =>
            simp [upload_image_to_imgbb, upload_try, JVal.pyContains,
              JVal.pyIndex, isOkE, hasNestedUrlField, hd]
          | str s2 =>
            cases hc2 : strContains "url" s2 <;>
              simp [upload_image_to_imgbb, upload_try, JVal.pyContains,
                JVal.pyIndex, isOkE, hasNestedUrlField, hd, hc2]
          | obj gs =>
            cases hu : gs.lookup "url" with
            | none =>
              simp [upload_image_to_imgbb, upload_try, JVal.pyContains,
                JVal.pyIndex, isOkE, hasNestedUrlField, hd, hu]
            | some u =>
              simp [upload_image_to_imgbb, upload_try, JVal.pyContains,
                JVal.pyIndex, isOkE, hasNestedUrlField, hd, hu]
  · intro r u hpost hnu
    cases post with
    | raiseErr m => exact PostResult.noConfusion hpost
    | ok result =>
      have : result = r := PostResult.ok.inj hpost
      subst this
      cases result with
      | prim => simp [nestedUrlField] at hnu
      | str s => simp [nestedUrlField] at hnu
      | obj fs =>
        cases hd : fs.lookup "data" with
        | none => simp [nestedUrlField, hd] at hnu
        | some d =>
          cases d with
          | prim => simp [nestedUrlField, hd] at hnu
          | str s2 => simp [nestedUrlField, hd] at hnu
          | obj gs =>
            simp only [nestedUrlField, hd] at hnu
            simp [upload_image_to_imgbb, upload_try, JVal.pyContains,
              JVal.pyIndex, hd, hnu]

/-- C8 witness: a well-formed host response with the nested URL field
yields that URL, applying the classification theorem at a concrete
response. -/
theorem C8_upload_error_classification_witness :
    upload_image_to_imgbb
        (.ok (.obj [("data", .obj [("url", .str "hosted")])])) =
      .ok (.str "hosted") :=
  (C8_upload_error_classification
      (.ok (.obj [("data", .obj [("url", .str "hosted")])]))).2.2
    (.obj [("data", .obj [("url", .str "hosted")])]) (.str "hosted") rfl rfl

end ConvertPdf
